import Mathlib

/-!
# Verification of the RSU eligibility and vulnerability scoring engine

Shallow embedding of `apps/eligibility/services.py` (classes
`EligibilityEngine` and `VulnerabilityCalculator`) and the budget test of
`apps/eligibility/models.py` (`SocialProgram.is_budget_available`).

Modelling conventions:
* Python floats are modelled by exact rationals (`ℚ`); every constant in the
  source (`100.0`, `60.0`, `0.25`, ...) is exactly representable.
* JSON context/expected values are modelled by `Value`: a scalar
  (null, number, string) or a flat list of scalars.  Nested lists are
  outside the modelled domain (no rule in scope uses them).  Python `==` on
  this domain coincides with structural equality (numbers compare by value,
  strings by content, lists elementwise, cross-type comparisons unequal),
  and Python `in` with list membership.
* `float(v)` conversion is `toFloatQ`: numbers convert; `None` and lists
  raise `TypeError`, non-numeric strings raise `ValueError` — all three
  are modelled as `none` (numeric string literals are outside the modelled
  domain; every caller catches `ValueError` and `TypeError` together).
* Python `/` raises `ZeroDivisionError` on a zero denominator, and the
  `except (ValueError, TypeError)` clause of `_calculate_gradual_score` does
  NOT catch it; fallible functions therefore return `Except Unit _`, with
  `Except.error ()` marking a propagating `ZeroDivisionError`.
-/

/-- A scalar JSON value. -/
inductive Prim where
  | null : Prim
  | num : ℚ → Prim
  | str : String → Prim
deriving DecidableEq, Repr

/-- A JSON-like runtime value (context values and `expected_value`):
a scalar or a flat list of scalars. -/
inductive Value where
  | prim : Prim → Value
  | list : List Prim → Value
deriving DecidableEq, Repr

/-- `float(p)` on a scalar: numbers convert, `None` raises `TypeError`,
non-numeric strings raise `ValueError` (modelled as `none`). -/
def Prim.toFloatQ : Prim → Option ℚ
  | Prim.num q => some q
  | _ => none

/-- `float(v)`: scalars as in `Prim.toFloatQ`; a list raises `TypeError`. -/
def Value.toFloatQ : Value → Option ℚ
  | Value.prim p => p.toFloatQ
  | Value.list _ => none

/-- Python `v in l` for a list `l` of scalars: a scalar is compared by
`==` against each element; a list never equals a scalar. -/
def Value.pyMem : Value → List Prim → Bool
  | Value.prim p, l => p ∈ l
  | Value.list _, _ => false

/-- Python `str(v).lower()`, approximating Python's rendering of
non-string values; only the `CONTAINS` operator (used by no claim in
scope) depends on the non-string cases. -/
def Value.pyStrLower : Value → String
  | Value.prim Prim.null => "none"
  | Value.prim (Prim.num q) => (toString q).toLower
  | Value.prim (Prim.str s) => s.toLower
  | Value.list _ => "[...]"

/-- The ten comparison operators of `EligibilityRule.OPERATORS`. -/
inductive Op where
  | EQ | NE | GT | GTE | LT | LTE | IN | NOT_IN | CONTAINS | BETWEEN
deriving DecidableEq, Repr

/-- `None` (the value a missing context key resolves to). -/
def Value.null : Value := Value.prim Prim.null

/-- `EligibilityEngine._apply_operator`: `actual is None` fails every
operator; a `ValueError`/`TypeError` from a `float` conversion is caught
by `except (ValueError, TypeError)` and yields `False`. -/
def applyOperator (actual expected : Value) (op : Op) : Bool :=
  if actual = Value.null then false
  else
    match op with
    | Op.EQ => actual = expected
    | Op.NE => actual ≠ expected
    | Op.GT =>
      match actual.toFloatQ, expected.toFloatQ with
      | some a, some e => a > e
      | _, _ => false
    | Op.GTE =>
      match actual.toFloatQ, expected.toFloatQ with
      | some a, some e => a ≥ e
      | _, _ => false
    | Op.LT =>
      match actual.toFloatQ, expected.toFloatQ with
      | some a, some e => a < e
      | _, _ => false
    | Op.LTE =>
      match actual.toFloatQ, expected.toFloatQ with
      | some a, some e => a ≤ e
      | _, _ => false
    | Op.IN =>
      match expected with
      | Value.list l => actual.pyMem l
      | _ => false
    | Op.NOT_IN =>
      match expected with
      | Value.list l => ! actual.pyMem l
      | _ => true
    | Op.CONTAINS =>
      decide (expected.pyStrLower.data <:+: actual.pyStrLower.data)
    | Op.BETWEEN =>
      match expected with
      | Value.list [lo, hi] =>
        match lo.toFloatQ, actual.toFloatQ, hi.toFloatQ with
        | some l, some a, some h => l ≤ a ∧ a ≤ h
        | _, _, _ => false
      | _ => false

/-- `EligibilityEngine._calculate_gradual_score`.  A failing `float`
conversion is caught by the local `except (ValueError, TypeError)` and
returns `0.0`; a `ZeroDivisionError` from `actual_f / expected_f` is NOT
caught and propagates (`Except.error ()`). -/
def calculateGradualScore (actual expected : Value) (op : Op) : Except Unit ℚ :=
  match actual.toFloatQ, expected.toFloatQ with
  | some a, some e =>
    if op = Op.LTE ∨ op = Op.LT then
      if a ≤ e then Except.ok 100
      else
        -- `min(2.0, actual_f / expected_f)`: Python `/` raises on e = 0
        if e = 0 then Except.error ()
        else Except.ok (max 0 (100 * (2 - min 2 (a / e))))
    else if op = Op.GTE ∨ op = Op.GT then
      if a ≥ e then Except.ok 100
      else
        if a ≤ e * (1/2) then Except.ok 0
        else
          -- `(actual_f - min_threshold) / (expected_f - min_threshold)`:
          -- Python `/` raises on a zero denominator (unreachable here)
          if e - e * (1/2) = 0 then Except.error ()
          else Except.ok ((a - e * (1/2)) / (e - e * (1/2)) * 100)
    else Except.ok (if applyOperator actual expected op then 100 else 0)
  | _, _ => Except.ok 0

/-- `EligibilityRule` (apps/eligibility/models.py): the fields the engine
reads during one evaluation.  `expected_value` is a JSONField. -/
structure EligibilityRule where
  rule_name : String
  rule_type : String
  field_name : String
  operator : Op
  expected_value : Value
  weight : ℚ
  priority : ℕ
  is_mandatory : Bool
  is_active : Bool
deriving DecidableEq, Repr

/-- The `{'passed': …, 'score': …}` part of a single-rule evaluation. -/
structure RuleOutcome where
  passed : Bool
  score : ℚ
deriving DecidableEq, Repr

/-- A context is an opaque key → value lookup (spec §6 Context Provider);
`_get_context_value` resolves a missing key to `None` (`Value.null`). -/
def Context : Type := String → Value

/-- `EligibilityEngine._evaluate_single_rule`: apply the operator for the
boolean, then for GT/GTE/LT/LTE with a present actual value replace the
boolean score with the graduated score.  A `ZeroDivisionError` escaping
`_calculate_gradual_score` propagates out of this function too. -/
def evaluateSingleRule (rule : EligibilityRule) (ctx : Context) :
    Except Unit RuleOutcome :=
  let actual := ctx rule.field_name
  let expected := rule.expected_value
  let passed := applyOperator actual expected rule.operator
  let score : ℚ := if passed then 100 else 0
  if (rule.operator = Op.GT ∨ rule.operator = Op.GTE ∨
      rule.operator = Op.LT ∨ rule.operator = Op.LTE) ∧ actual ≠ Value.null
  then
    match calculateGradualScore actual expected rule.operator with
    | Except.ok s => Except.ok ⟨passed, s⟩
    | Except.error e => Except.error e
  else Except.ok ⟨passed, score⟩

/-- One entry of the `rule_results` dict built by
`EligibilityEngine._evaluate_rules`.  The success branch records
`rule_name`, `rule_type`, `is_mandatory`, `weight`, `passed`, `score`;
the exception branch records only `rule_name`, `passed = False`,
`score = 0.0` and an `error` annotation — `rule_type`, `is_mandatory` and
`weight` are absent (`none`).  (The `details` sub-dict is never read by
the aggregator and is not modelled.) -/
structure RuleResult where
  rule_name : String
  rule_type : Option String
  is_mandatory : Option Bool
  weight : Option ℚ
  passed : Bool
  score : ℚ
  error : Bool
deriving DecidableEq, Repr

/-- The body of the `for rule in rules:` loop of `_evaluate_rules`:
a successful evaluation records the full result, an exception is caught
(`except Exception`) and records the degraded result. -/
def evalRuleResult (rule : EligibilityRule) (ctx : Context) : RuleResult :=
  match evaluateSingleRule rule ctx with
  | Except.ok o =>
    { rule_name := rule.rule_name
      rule_type := some rule.rule_type
      is_mandatory := some rule.is_mandatory
      weight := some rule.weight
      passed := o.passed
      score := o.score
      error := false }
  | Except.error _ =>
    { rule_name := rule.rule_name
      rule_type := none
      is_mandatory := none
      weight := none
      passed := false
      score := 0
      error := true }

/-- `EligibilityEngine._evaluate_rules`: evaluate every active rule
(the query `filter(is_active=True).order_by('priority')`; the dict is
modelled as a list — the aggregator only iterates its values). -/
def evaluateRules (rules : List EligibilityRule) (ctx : Context) :
    List RuleResult :=
  (rules.filter fun r => r.is_active).map fun r => evalRuleResult r ctx

/-- `SocialProgram`: the budget fields read by the engine. -/
structure SocialProgram where
  total_budget : ℚ
  allocated_budget : ℚ
deriving DecidableEq, Repr

/-- `SocialProgram.is_budget_available` (models.py):
`allocated_budget < total_budget`. -/
def SocialProgram.is_budget_available (p : SocialProgram) : Bool :=
  p.allocated_budget < p.total_budget

/-- `result.get('weight', 1.0)` in `_calculate_final_eligibility`. -/
def RuleResult.weightD (r : RuleResult) : ℚ := r.weight.getD 1

/-- `result.get('is_mandatory', True)` in `_calculate_final_eligibility`. -/
def RuleResult.mandatoryD (r : RuleResult) : Bool := r.is_mandatory.getD true

/-- The `failed_mandatory` list accumulated by
`_calculate_final_eligibility`: names of results whose (defaulted)
mandatory flag is set and whose `passed` is false. -/
def failedMandatoryRules (rs : List RuleResult) : List String :=
  rs.filterMap fun r =>
    if r.mandatoryD ∧ ¬ r.passed then some r.rule_name else none

/-- `total_score`: the accumulated `rule_score * rule_weight`. -/
def totalScore (rs : List RuleResult) : ℚ :=
  (rs.map fun r => r.score * r.weightD).sum

/-- `total_weight`: the accumulated `rule_weight`. -/
def totalWeight (rs : List RuleResult) : ℚ :=
  (rs.map fun r => r.weightD).sum

/-- `composite_score = total_score / total_weight if total_weight > 0
else 0.0`. -/
def compositeScore (rs : List RuleResult) : ℚ :=
  if 0 < totalWeight rs then totalScore rs / totalWeight rs else 0

/-- Python's `round` to the nearest integer (banker's rounding:
ties go to the even integer). -/
def pyRoundInt (q : ℚ) : ℤ :=
  let f : ℤ := Int.floor q
  let frac : ℚ := q - f
  if frac < 1/2 then f
  else if 1/2 < frac then f + 1
  else if f % 2 = 0 then f else f + 1

/-- Python's `round(q, 2)`. -/
def pyRound2 (q : ℚ) : ℚ := (pyRoundInt (q * 100) : ℚ) / 100

/-- The dict returned by `_calculate_final_eligibility`. -/
structure EligibilityDecision where
  is_eligible : Bool
  score : ℚ
  confidence : ℚ
  failed_mandatory : List String
  total_rules_evaluated : ℕ
deriving DecidableEq, Repr

/-- `EligibilityEngine._calculate_final_eligibility` (the program is used
only through `program.is_budget_available`). -/
def calculateFinalEligibility (budget_available : Bool)
    (rule_results : List RuleResult) : EligibilityDecision :=
  let failed_mandatory := failedMandatoryRules rule_results
  let rule_count := rule_results.length
  let composite_score := compositeScore rule_results
  let is_eligible :=
    failed_mandatory.length = 0 ∧ composite_score ≥ 60 ∧ budget_available
  let confidence :=
    min 100 (composite_score * (8/10) + (rule_count : ℚ) * 2)
  { is_eligible := is_eligible
    score := pyRound2 composite_score
    confidence := pyRound2 confidence
    failed_mandatory := failed_mandatory
    total_rules_evaluated := rule_count }

/-- The person attributes the vulnerability calculator reads.  The helper
accessors of the source (`_calculate_age`, `_get_family_size`,
`_get_dependents_count`, `_is_household_head`) are pure reads of
person/household data; their results are modelled as fields (spec §6:
the Context Provider supplies age, gender, marital status, administrative
division, family size, dependents count and the household-head flag). -/
structure Person where
  age : ℤ
  gender : String
  marital_status : Option String
  administrative_division : Option String
  family_size : ℤ
  dependents_count : ℤ
  household_head : Bool
deriving DecidableEq, Repr

/-- The caller-supplied auxiliary dict read by the vulnerability
calculator (`context_data`); absent keys are `None`/falsy. -/
structure ContextData where
  monthly_income : Option ℚ
  employment_status : Option String
  education_level : Option String
  health_status : Option String
  housing_type : Option String
  has_disability : Bool
  chronic_illness : Bool
deriving DecidableEq, Repr

/-- The dimension weights of `VulnerabilityCalculator.__init__`. -/
def vulnWeightDemographic : ℚ := 25/100
def vulnWeightEconomic : ℚ := 35/100
def vulnWeightSocial : ℚ := 20/100
def vulnWeightHealth : ℚ := 15/100
def vulnWeightGeographic : ℚ := 5/100

/-- Age contribution of `_calculate_demographic_score`. -/
def demographicAgePart (p : Person) : ℚ :=
  if p.age < 18 ∨ p.age > 65 then 30
  else if p.age < 25 ∨ p.age > 55 then 15
  else 0

/-- `_calculate_demographic_score` before the final `min(100.0, score)`:
the sequence of independent `score +=` blocks. -/
def demographicRawScore (p : Person) : ℚ :=
  demographicAgePart p
  + (if p.gender = "F" then 10 else 0)
  + (if p.gender = "F" ∧ p.household_head then 20 else 0)
  + (if p.marital_status = some "DIVORCED" ∨ p.marital_status = some "WIDOWED"
     then 15 else 0)

/-- `VulnerabilityCalculator._calculate_demographic_score`. -/
def demographicScore (p : Person) : ℚ := min 100 (demographicRawScore p)

/-- Income contribution of `_calculate_economic_score`
(poverty line 75000 FCFA/month; thresholds 1.5× and 2×). -/
def economicIncomePart (cd : ContextData) : ℚ :=
  match cd.monthly_income with
  | none => 0
  | some inc =>
    if inc ≤ 75000 then 60
    else if inc ≤ 112500 then 40
    else if inc ≤ 150000 then 20
    else 0

/-- Employment contribution of `_calculate_economic_score`. -/
def economicEmploymentPart (cd : ContextData) : ℚ :=
  if cd.employment_status = some "UNEMPLOYED" ∨
     cd.employment_status = some "INFORMAL" then 30
  else if cd.employment_status = some "PART_TIME" then 15
  else 0

/-- Housing contribution of `_calculate_economic_score`. -/
def economicHousingPart (cd : ContextData) : ℚ :=
  if cd.housing_type = some "PRECARIOUS" ∨
     cd.housing_type = some "HOMELESS" then 40
  else if cd.housing_type = some "RENTAL" then 10
  else 0

/-- Dependents contribution of `_calculate_economic_score` (computed
outside the `if context_data:` block). -/
def economicDependentsPart (p : Person) : ℚ :=
  if p.dependents_count > 3 then 25
  else if p.dependents_count > 0 then 10
  else 0

/-- `_calculate_economic_score` before the final `min(100.0, score)`. -/
def economicRawScore (p : Person) (c : Option ContextData) : ℚ :=
  (match c with
   | none => 0
   | some cd =>
     economicIncomePart cd + economicEmploymentPart cd + economicHousingPart cd)
  + economicDependentsPart p

/-- `VulnerabilityCalculator._calculate_economic_score`. -/
def economicScore (p : Person) (c : Option ContextData) : ℚ :=
  min 100 (economicRawScore p c)

/-- Education contribution of `_calculate_social_score`
(`if context_data and context_data.get('education_level'):` — a missing
or empty level is falsy and contributes 0, which the match reproduces). -/
def socialEducationPart (c : Option ContextData) : ℚ :=
  match c with
  | none => 0
  | some cd =>
    match cd.education_level with
    | none => 0
    | some lvl =>
      if lvl = "NONE" ∨ lvl = "PRIMARY_INCOMPLETE" then 25
      else if lvl = "PRIMARY_COMPLETE" then 10
      else 0

/-- `_calculate_social_score` before the final `min(100.0, score)`. -/
def socialRawScore (p : Person) (c : Option ContextData) : ℚ :=
  (if p.family_size ≤ 1 then 30
   else if p.family_size ≤ 2 then 15
   else 0)
  + socialEducationPart c

/-- `VulnerabilityCalculator._calculate_social_score`. -/
def socialScore (p : Person) (c : Option ContextData) : ℚ :=
  min 100 (socialRawScore p c)

/-- Context-data contribution of `_calculate_health_score`. -/
def healthContextPart (c : Option ContextData) : ℚ :=
  match c with
  | none => 0
  | some cd =>
    (if cd.health_status = some "POOR" then 50
     else if cd.health_status = some "FAIR" then 25
     else 0)
    + (if cd.has_disability then 30 else 0)
    + (if cd.chronic_illness then 20 else 0)

/-- `_calculate_health_score` before the final `min(100.0, score)`. -/
def healthRawScore (p : Person) (c : Option ContextData) : ℚ :=
  healthContextPart c
  + (if p.age > 70 then 15 else if p.age > 60 then 10 else 0)

/-- `VulnerabilityCalculator._calculate_health_score`. -/
def healthScore (p : Person) (c : Option ContextData) : ℚ :=
  min 100 (healthRawScore p c)

/-- `_calculate_geographic_score` before the final `min(100.0, score)`
(the configured rural set is `['RURAL_1', 'RURAL_2']`; the GPS
distance-to-services extension point contributes nothing). -/
def geographicRawScore (p : Person) : ℚ :=
  if p.administrative_division = some "RURAL_1" ∨
     p.administrative_division = some "RURAL_2" then 30
  else 0

/-- `VulnerabilityCalculator._calculate_geographic_score`. -/
def geographicScore (p : Person) : ℚ := min 100 (geographicRawScore p)

/-- The weighted overall score of
`VulnerabilityCalculator.calculate_vulnerability_score`. -/
def overallVulnerabilityScore (p : Person) (c : Option ContextData) : ℚ :=
  demographicScore p * vulnWeightDemographic
  + economicScore p c * vulnWeightEconomic
  + socialScore p c * vulnWeightSocial
  + healthScore p c * vulnWeightHealth
  + geographicScore p * vulnWeightGeographic

/-- `VulnerabilityCalculator._classify_vulnerability_level`. -/
def classifyVulnerabilityLevel (overall_score : ℚ) : String :=
  if overall_score ≥ 80 then "CRITICAL"
  else if overall_score ≥ 60 then "HIGH"
  else if overall_score ≥ 40 then "MODERATE"
  else "LOW"

/-! ## Helper lemmas -/

lemma mem_failedMandatory_of_mem {r : RuleResult} {rs : List RuleResult}
    (hmem : r ∈ rs) (hman : r.mandatoryD = true) (hpass : r.passed = false) :
    r.rule_name ∈ failedMandatoryRules rs := by
  unfold failedMandatoryRules
  exact List.mem_filterMap.mpr ⟨r, hmem, by simp [hman, hpass]⟩

lemma eligible_eq_decide (b : Bool) (rs : List RuleResult) :
    (calculateFinalEligibility b rs).is_eligible =
      decide ((failedMandatoryRules rs).length = 0 ∧
        compositeScore rs ≥ 60 ∧ b = true) := by
  simp [calculateFinalEligibility]

lemma eligible_false_of_mem_failed {rs : List RuleResult} {b : Bool}
    {name : String} (hmem : name ∈ failedMandatoryRules rs) :
    (calculateFinalEligibility b rs).is_eligible = false := by
  rw [eligible_eq_decide]
  simp only [decide_eq_false_iff_not]
  intro h
  rcases h with ⟨hlen, -⟩
  rw [List.length_eq_zero] at hlen
  rw [hlen] at hmem
  exact List.not_mem_nil name hmem

/-! ## Claims -/

/-- Claim C1: the Composite Decision Aggregator returns `eligible = true`
iff no mandatory rule failed AND the composite score is at least 60 AND
the budget is available; in particular any failed mandatory rule forces an
ineligible decision regardless of composite score and budget. -/
theorem composite_decision_aggregator_spec (b : Bool) (rs : List RuleResult) :
    ((calculateFinalEligibility b rs).is_eligible = true ↔
      failedMandatoryRules rs = [] ∧ compositeScore rs ≥ 60 ∧ b = true) ∧
    (∀ r ∈ rs, r.is_mandatory = some true → r.passed = false →
      (calculateFinalEligibility b rs).is_eligible = false) := by
  constructor
  · rw [eligible_eq_decide]
    simp [List.length_eq_zero]
  · intro r hr hman hpass
    refine eligible_false_of_mem_failed (mem_failedMandatory_of_mem hr ?_ hpass)
    simp [RuleResult.mandatoryD, hman]

/-- Witness for C1 at a concrete input: a single failing mandatory rule
with a perfect score and an available budget is still ineligible. -/
theorem composite_decision_aggregator_spec_witness :
    (calculateFinalEligibility true
      [{ rule_name := "r", rule_type := some "INCOME",
         is_mandatory := some true, weight := some 1,
         passed := false, score := 100, error := false }]).is_eligible = false :=
  (composite_decision_aggregator_spec true _).2 _ (List.mem_singleton.mpr rfl)
    rfl rfl

/-- Claim C2 (code bug): on an LT rule with expected value 0 and actual
value 1, the graduated scorer raises `ZeroDivisionError` (modelled
`Except.error ()`) instead of returning a score of 0 — the local
`except (ValueError, TypeError)` does not catch it. -/
theorem gradual_score_division_by_zero_raises :
    calculateGradualScore (Value.prim (Prim.num 1)) (Value.prim (Prim.num 0))
      Op.LT = Except.error () := by
  rfl


/-- Claim C3: a rule whose evaluation raises is recorded with only
`passed = false`, `score = 0` and an error annotation (no weight or
mandatory fields); the aggregator then defaults the missing mandatory
flag to true and the missing weight to 1, so the errored rule — even one
configured non-mandatory — is counted as a failed mandatory rule,
contributes weight 1 at score 0 to the composite sums, and forces
`eligible = false`. -/
theorem errored_rule_counted_as_failed_mandatory
    (rule : EligibilityRule) (ctx : Context) (rest : List RuleResult) (b : Bool)
    (herr : evaluateSingleRule rule ctx = Except.error ()) :
    evalRuleResult rule ctx =
      { rule_name := rule.rule_name, rule_type := none, is_mandatory := none,
        weight := none, passed := false, score := 0, error := true } ∧
    (evalRuleResult rule ctx).mandatoryD = true ∧
    (evalRuleResult rule ctx).weightD = 1 ∧
    rule.rule_name ∈ failedMandatoryRules (evalRuleResult rule ctx :: rest) ∧
    totalWeight (evalRuleResult rule ctx :: rest) = 1 + totalWeight rest ∧
    totalScore (evalRuleResult rule ctx :: rest) = totalScore rest ∧
    (calculateFinalEligibility b (evalRuleResult rule ctx :: rest)).is_eligible
      = false := by
  have hres : evalRuleResult rule ctx =
      { rule_name := rule.rule_name, rule_type := none, is_mandatory := none,
        weight := none, passed := false, score := 0, error := true } := by
    unfold evalRuleResult
    rw [herr]
  have hman : (evalRuleResult rule ctx).mandatoryD = true := by
    rw [hres]; rfl
  have hwt : (evalRuleResult rule ctx).weightD = 1 := by
    rw [hres]; rfl
  have hpass : (evalRuleResult rule ctx).passed = false := by
    rw [hres]
  have hname : (evalRuleResult rule ctx).rule_name = rule.rule_name := by
    rw [hres]
  have hmem : rule.rule_name ∈
      failedMandatoryRules (evalRuleResult rule ctx :: rest) := by
    have := mem_failedMandatory_of_mem
      (List.mem_cons_self (evalRuleResult rule ctx) rest) hman hpass
    rwa [hname] at this
  refine ⟨hres, hman, hwt, hmem, ?_, ?_, eligible_false_of_mem_failed hmem⟩
  · unfold totalWeight
    rw [List.map_cons, List.sum_cons, hwt]
  · unfold totalScore
    rw [List.map_cons, List.sum_cons, hwt]
    have hscore : (evalRuleResult rule ctx).score = 0 := by rw [hres]
    rw [hscore]
    ring

/-- Witness for C3: a non-mandatory LT rule with expected value 0 and
actual value 1 raises in the scorer and alone makes the (budget-available)
decision ineligible. -/
theorem errored_rule_counted_as_failed_mandatory_witness :
    (calculateFinalEligibility true
      [evalRuleResult
        ⟨"e", "INCOME", "x", Op.LT, Value.prim (Prim.num 0), 5, 1, false, true⟩
        (fun _ => Value.prim (Prim.num 1))]).is_eligible = false :=
  (errored_rule_counted_as_failed_mandatory
    ⟨"e", "INCOME", "x", Op.LT, Value.prim (Prim.num 0), 5, 1, false, true⟩
    (fun _ => Value.prim (Prim.num 1)) [] true rfl).2.2.2.2.2.2

lemma calculateGradualScore_lt_lte (op : Op) (hop : op = Op.LT ∨ op = Op.LTE)
    (a e : ℚ) :
    calculateGradualScore (Value.prim (Prim.num a)) (Value.prim (Prim.num e)) op
      = if a ≤ e then Except.ok 100
        else if e = 0 then Except.error ()
        else Except.ok (max 0 (100 * (2 - min 2 (a / e)))) := by
  rcases hop with h | h <;> subst h <;> rfl

lemma calculateGradualScore_gt_gte (op : Op) (hop : op = Op.GT ∨ op = Op.GTE)
    (a e : ℚ) :
    calculateGradualScore (Value.prim (Prim.num a)) (Value.prim (Prim.num e)) op
      = if a ≥ e then Except.ok 100
        else if a ≤ e * (1/2) then Except.ok 0
        else if e - e * (1/2) = 0 then Except.error ()
        else Except.ok ((a - e * (1/2)) / (e - e * (1/2)) * 100) := by
  rcases hop with h | h <;> subst h <;> rfl

/-- Claim C4: for LT/LTE rules with present numeric actual and positive
expected value, the graduated score is 100 for `actual ≤ expected`,
`max 0 (100·(2 − min 2 (actual/expected)))` above it, 0 from
`2·expected` on, and strictly decreasing on `(expected, 2·expected)`. -/
theorem lt_lte_graduated_score_spec (op : Op) (hop : op = Op.LT ∨ op = Op.LTE)
    (a e : ℚ) (he : 0 < e) :
    (a ≤ e → calculateGradualScore (Value.prim (Prim.num a))
        (Value.prim (Prim.num e)) op = Except.ok 100) ∧
    (e < a → calculateGradualScore (Value.prim (Prim.num a))
        (Value.prim (Prim.num e)) op
        = Except.ok (max 0 (100 * (2 - min 2 (a / e))))) ∧
    (2 * e ≤ a → calculateGradualScore (Value.prim (Prim.num a))
        (Value.prim (Prim.num e)) op = Except.ok 0) ∧
    (∀ a1 a2 : ℚ, e < a1 → a1 < a2 → a2 < 2 * e →
      ∃ s1 s2 : ℚ,
        calculateGradualScore (Value.prim (Prim.num a1))
          (Value.prim (Prim.num e)) op = Except.ok s1 ∧
        calculateGradualScore (Value.prim (Prim.num a2))
          (Value.prim (Prim.num e)) op = Except.ok s2 ∧
        s2 < s1) := by
  refine ⟨?_, ?_, ?_, ?_⟩
  · intro hae
    rw [calculateGradualScore_lt_lte op hop a e, if_pos hae]
  · intro hae
    rw [calculateGradualScore_lt_lte op hop a e, if_neg (not_le.mpr hae),
      if_neg he.ne']
  · intro h2e
    have hae : e < a := lt_of_lt_of_le (by linarith) h2e
    rw [calculateGradualScore_lt_lte op hop a e, if_neg (not_le.mpr hae),
      if_neg he.ne']
    have hdiv : (2 : ℚ) ≤ a / e := (le_div_iff₀ he).mpr (by linarith)
    rw [min_eq_left hdiv]
    norm_num
  · intro a1 a2 h1 h12 h22
    have hq1 : a1 / e < 2 := (div_lt_iff₀ he).mpr (by linarith)
    have hq2 : a2 / e < 2 := (div_lt_iff₀ he).mpr (by linarith)
    refine ⟨100 * (2 - a1 / e), 100 * (2 - a2 / e), ?_, ?_, ?_⟩
    · rw [calculateGradualScore_lt_lte op hop a1 e, if_neg (not_le.mpr h1),
        if_neg he.ne', min_eq_right hq1.le, max_eq_right (by nlinarith)]
    · have h2 : e < a2 := h1.trans h12
      rw [calculateGradualScore_lt_lte op hop a2 e, if_neg (not_le.mpr h2),
        if_neg he.ne', min_eq_right hq2.le, max_eq_right (by nlinarith)]
    · have hdd : a1 / e < a2 / e := (div_lt_div_iff_of_pos_right he).mpr h12
      linarith

/-- Witness for C4 at `op = LT`, `actual = 3`, `expected = 2`:
the decayed score is 50. -/
theorem lt_lte_graduated_score_spec_witness :
    calculateGradualScore (Value.prim (Prim.num 3)) (Value.prim (Prim.num 2))
      Op.LT = Except.ok 50 := by
  have h := (lt_lte_graduated_score_spec Op.LT (Or.inl rfl) 3 2
    (by norm_num)).2.1 (by norm_num)
  rw [h]
  norm_num

/-- Claim C5: for GT/GTE rules with present numeric actual and positive
expected value, the graduated score is 100 for `actual ≥ expected`, 0 at
or below half the expected value, and rises linearly as
`100·(actual − 0.5·expected)/(expected − 0.5·expected)` in between. -/
theorem gt_gte_graduated_score_spec (op : Op) (hop : op = Op.GT ∨ op = Op.GTE)
    (a e : ℚ) (he : 0 < e) :
    (e ≤ a → calculateGradualScore (Value.prim (Prim.num a))
        (Value.prim (Prim.num e)) op = Except.ok 100) ∧
    (a ≤ e * (1/2) → calculateGradualScore (Value.prim (Prim.num a))
        (Value.prim (Prim.num e)) op = Except.ok 0) ∧
    (e * (1/2) < a → a < e → calculateGradualScore (Value.prim (Prim.num a))
        (Value.prim (Prim.num e)) op
        = Except.ok (100 * ((a - e * (1/2)) / (e - e * (1/2))))) := by
  refine ⟨?_, ?_, ?_⟩
  · intro hae
    rw [calculateGradualScore_gt_gte op hop a e, if_pos hae]
  · intro hhalf
    have hae : ¬ a ≥ e := not_le.mpr (by linarith)
    rw [calculateGradualScore_gt_gte op hop a e, if_neg hae, if_pos hhalf]
  · intro hhalf hae
    have hne : e - e * (1/2) ≠ 0 := by intro h; nlinarith
    rw [calculateGradualScore_gt_gte op hop a e, if_neg (not_le.mpr hae),
      if_neg (not_le.mpr hhalf), if_neg hne]
    exact congrArg Except.ok (mul_comm _ _)

/-- Witness for C5 at `op = GTE`, `actual = 75`, `expected = 100`:
the linear ramp gives 50. -/
theorem gt_gte_graduated_score_spec_witness :
    calculateGradualScore (Value.prim (Prim.num 75)) (Value.prim (Prim.num 100))
      Op.GTE = Except.ok 50 := by
  have h := (gt_gte_graduated_score_spec Op.GTE (Or.inr rfl) 75 100
    (by norm_num)).2.2 (by norm_num) (by norm_num)
  rw [h]
  norm_num

lemma totalScore_nonneg {rs : List RuleResult}
    (hw : ∀ r ∈ rs, 0 < r.weightD) (hs : ∀ r ∈ rs, 0 ≤ r.score) :
    0 ≤ totalScore rs := by
  unfold totalScore
  refine List.sum_nonneg ?_
  intro x hx
  rcases List.mem_map.mp hx with ⟨r, hr, rfl⟩
  exact mul_nonneg (hs r hr) (hw r hr).le

lemma totalWeight_nonneg {rs : List RuleResult}
    (hw : ∀ r ∈ rs, 0 < r.weightD) : 0 ≤ totalWeight rs := by
  unfold totalWeight
  refine List.sum_nonneg ?_
  intro x hx
  rcases List.mem_map.mp hx with ⟨r, hr, rfl⟩
  exact (hw r hr).le

lemma totalScore_le_hundred_mul {rs : List RuleResult}
    (hw : ∀ r ∈ rs, 0 < r.weightD) (hs : ∀ r ∈ rs, r.score ≤ 100) :
    totalScore rs ≤ 100 * totalWeight rs := by
  induction rs with
  | nil => simp [totalScore, totalWeight]
  | cons r rest ih =>
    have hr : totalScore (r :: rest) = r.score * r.weightD + totalScore rest :=
      by simp [totalScore]
    have hwr : totalWeight (r :: rest) = r.weightD + totalWeight rest := by
      simp [totalWeight]
    have h1 : r.score * r.weightD ≤ 100 * r.weightD :=
      mul_le_mul_of_nonneg_right (hs r (List.mem_cons_self r rest))
        (hw r (List.mem_cons_self r rest)).le
    have h2 := ih (fun x hx => hw x (List.mem_cons_of_mem r hx))
      (fun x hx => hs x (List.mem_cons_of_mem r hx))
    rw [hr, hwr]
    linarith

/-- Claim C6: the composite score is the weighted average
`Σ(score·weight)/Σ(weight)` (0 when the weight sum is zero, in particular
for an empty rule set), lies in `[0, 100]` for positive weights and
scores in `[0, 100]`, and two equal-weight rules scoring 100 and 0 give
exactly 50. -/
theorem composite_score_weighted_average_spec (rs : List RuleResult)
    (hw : ∀ r ∈ rs, 0 < r.weightD)
    (hs : ∀ r ∈ rs, 0 ≤ r.score ∧ r.score ≤ 100) :
    (0 < totalWeight rs → compositeScore rs = totalScore rs / totalWeight rs) ∧
    (totalWeight rs = 0 → compositeScore rs = 0) ∧
    0 ≤ compositeScore rs ∧ compositeScore rs ≤ 100 ∧
    compositeScore [] = 0 ∧
    (∀ (r1 r2 : RuleResult) (w : ℚ), 0 < w →
      r1.weight = some w → r2.weight = some w →
      r1.score = 100 → r2.score = 0 → compositeScore [r1, r2] = 50) := by
  have hS0 : 0 ≤ totalScore rs := totalScore_nonneg hw (fun r hr => (hs r hr).1)
  have hSW : totalScore rs ≤ 100 * totalWeight rs :=
    totalScore_le_hundred_mul hw (fun r hr => (hs r hr).2)
  refine ⟨?_, ?_, ?_, ?_, ?_, ?_⟩
  · intro hpos
    unfold compositeScore
    rw [if_pos hpos]
  · intro hzero
    unfold compositeScore
    rw [hzero]
    norm_num
  · unfold compositeScore
    split_ifs with hpos
    · exact div_nonneg hS0 (le_of_lt hpos)
    · exact le_refl 0
  · unfold compositeScore
    split_ifs with hpos
    · rw [div_le_iff₀ hpos]
      linarith
    · norm_num
  · rfl
  · intro r1 r2 w hwpos h1 h2 hs1 hs2
    have hw1 : r1.weightD = w := by simp [RuleResult.weightD, h1]
    have hw2 : r2.weightD = w := by simp [RuleResult.weightD, h2]
    have hW : totalWeight [r1, r2] = 2 * w := by
      simp [totalWeight, hw1, hw2]
      try ring
    have hS : totalScore [r1, r2] = 100 * w := by
      simp [totalScore, hw1, hw2, hs1, hs2]
      try ring
    unfold compositeScore
    rw [hW, hS, if_pos (by linarith)]
    field_simp
    ring

/-- Witness for C6: two rules with weight 1 and scores 100 and 0 give
composite 50. -/
theorem composite_score_weighted_average_spec_witness :
    compositeScore
      [{ rule_name := "a", rule_type := some "INCOME",
         is_mandatory := some true, weight := some 1,
         passed := true, score := 100, error := false },
       { rule_name := "b", rule_type := some "INCOME",
         is_mandatory := some false, weight := some 1,
         passed := false, score := 0, error := false }] = 50 :=
  (composite_score_weighted_average_spec [] (by simp) (by simp)).2.2.2.2.2
    { rule_name := "a", rule_type := some "INCOME",
      is_mandatory := some true, weight := some 1,
      passed := true, score := 100, error := false }
    { rule_name := "b", rule_type := some "INCOME",
      is_mandatory := some false, weight := some 1,
      passed := false, score := 0, error := false }
    1 (by norm_num) rfl rfl rfl rfl


/-- Claim C7: with a present (non-null) actual value, IN fails closed on a
non-list expected value while NOT_IN is vacuously true there; on a list,
IN is membership and NOT_IN its negation. -/
theorem in_not_in_operator_spec (a expected : Value) (ha : a ≠ Value.null) :
    ((∀ l, expected ≠ Value.list l) →
      applyOperator a expected Op.IN = false ∧
      applyOperator a expected Op.NOT_IN = true) ∧
    (∀ l, expected = Value.list l →
      (applyOperator a expected Op.IN = true ↔ a.pyMem l = true) ∧
      (applyOperator a expected Op.NOT_IN = true ↔ ¬ a.pyMem l = true)) := by
  constructor
  · intro hnl
    cases expected with
    | prim p =>
      constructor
      · simp [applyOperator, ha]
      · simp [applyOperator, ha]
    | list l => exact absurd rfl (hnl l)
  · intro l hl
    subst hl
    constructor
    · simp [applyOperator, ha]
    · simp [applyOperator, ha]

/-- Witness for C7: a numeric actual value against a non-list expected
value makes NOT_IN vacuously true, and against the list `[2, 3]` makes
IN false. -/
theorem in_not_in_operator_spec_witness :
    applyOperator (Value.prim (Prim.num 1)) (Value.prim (Prim.num 2))
      Op.NOT_IN = true ∧
    applyOperator (Value.prim (Prim.num 1)) (Value.list [Prim.num 2, Prim.num 3])
      Op.IN = false := by
  constructor
  · exact ((in_not_in_operator_spec (Value.prim (Prim.num 1))
      (Value.prim (Prim.num 2)) (by decide)).1
      (fun l h => Value.noConfusion h)).2
  · have h := ((in_not_in_operator_spec (Value.prim (Prim.num 1))
      (Value.list [Prim.num 2, Prim.num 3]) (by decide)).2
      [Prim.num 2, Prim.num 3] rfl).1
    have hm : Value.pyMem (Value.prim (Prim.num 1))
        [Prim.num 2, Prim.num 3] = false := by decide
    rw [hm] at h
    simp only [Bool.false_eq_true, iff_false, Bool.not_eq_true] at h
    exact h


lemma min100_bounds {x : ℚ} (hx : 0 ≤ x) : 0 ≤ min 100 x ∧ min 100 x ≤ 100 :=
  ⟨le_min (by norm_num) hx, min_le_left _ _⟩

lemma demographicRawScore_nonneg (p : Person) : 0 ≤ demographicRawScore p := by
  unfold demographicRawScore demographicAgePart
  split_ifs <;> norm_num

lemma economicIncomePart_nonneg (cd : ContextData) :
    0 ≤ economicIncomePart cd := by
  unfold economicIncomePart
  split
  · norm_num
  · split_ifs <;> norm_num

lemma economicEmploymentPart_nonneg (cd : ContextData) :
    0 ≤ economicEmploymentPart cd := by
  unfold economicEmploymentPart
  split_ifs <;> norm_num

lemma economicHousingPart_nonneg (cd : ContextData) :
    0 ≤ economicHousingPart cd := by
  unfold economicHousingPart
  split_ifs <;> norm_num

lemma economicDependentsPart_nonneg (p : Person) :
    0 ≤ economicDependentsPart p := by
  unfold economicDependentsPart
  split_ifs <;> norm_num

lemma economicRawScore_nonneg (p : Person) (c : Option ContextData) :
    0 ≤ economicRawScore p c := by
  unfold economicRawScore
  have h4 := economicDependentsPart_nonneg p
  split
  · linarith
  · rename_i cd
    have h1 := economicIncomePart_nonneg cd
    have h2 := economicEmploymentPart_nonneg cd
    have h3 := economicHousingPart_nonneg cd
    linarith

lemma socialEducationPart_nonneg (c : Option ContextData) :
    0 ≤ socialEducationPart c := by
  unfold socialEducationPart
  split
  · norm_num
  · split
    · norm_num
    · split_ifs <;> norm_num

lemma socialRawScore_nonneg (p : Person) (c : Option ContextData) :
    0 ≤ socialRawScore p c := by
  unfold socialRawScore
  have h := socialEducationPart_nonneg c
  split_ifs <;> linarith

lemma healthContextPart_nonneg (c : Option ContextData) :
    0 ≤ healthContextPart c := by
  unfold healthContextPart
  split
  · norm_num
  · split_ifs <;> norm_num

lemma healthRawScore_nonneg (p : Person) (c : Option ContextData) :
    0 ≤ healthRawScore p c := by
  unfold healthRawScore
  have h := healthContextPart_nonneg c
  split_ifs <;> linarith

lemma geographicRawScore_nonneg (p : Person) : 0 ≤ geographicRawScore p := by
  unfold geographicRawScore
  split_ifs <;> norm_num

lemma demographicScore_bounds (p : Person) :
    0 ≤ demographicScore p ∧ demographicScore p ≤ 100 :=
  min100_bounds (demographicRawScore_nonneg p)

lemma economicScore_bounds (p : Person) (c : Option ContextData) :
    0 ≤ economicScore p c ∧ economicScore p c ≤ 100 :=
  min100_bounds (economicRawScore_nonneg p c)

lemma socialScore_bounds (p : Person) (c : Option ContextData) :
    0 ≤ socialScore p c ∧ socialScore p c ≤ 100 :=
  min100_bounds (socialRawScore_nonneg p c)

lemma healthScore_bounds (p : Person) (c : Option ContextData) :
    0 ≤ healthScore p c ∧ healthScore p c ≤ 100 :=
  min100_bounds (healthRawScore_nonneg p c)

lemma geographicScore_bounds (p : Person) :
    0 ≤ geographicScore p ∧ geographicScore p ≤ 100 :=
  min100_bounds (geographicRawScore_nonneg p)

/-- Claim C8: every dimension score is its raw additive sum clamped once
at 100 at the end of the dimension's accumulation; the weighted overall
score `0.25·demographic + 0.35·economic + 0.20·social + 0.15·health +
0.05·geographic` always lies in `[0, 100]`, even on inputs whose raw
economic and health sums pass 100 before the final clamp. -/
theorem vulnerability_weighted_score_bounds :
    (∀ (p : Person) (c : Option ContextData),
      demographicScore p = min 100 (demographicRawScore p) ∧
      economicScore p c = min 100 (economicRawScore p c) ∧
      socialScore p c = min 100 (socialRawScore p c) ∧
      healthScore p c = min 100 (healthRawScore p c) ∧
      geographicScore p = min 100 (geographicRawScore p) ∧
      overallVulnerabilityScore p c =
        demographicScore p * (25/100) + economicScore p c * (35/100)
        + socialScore p c * (20/100) + healthScore p c * (15/100)
        + geographicScore p * (5/100) ∧
      0 ≤ overallVulnerabilityScore p c ∧
      overallVulnerabilityScore p c ≤ 100) ∧
    (∃ (p : Person) (c : Option ContextData),
      100 < economicRawScore p c ∧ economicScore p c = 100 ∧
      100 < healthRawScore p c ∧ healthScore p c = 100 ∧
      overallVulnerabilityScore p c ≤ 100) := by
  constructor
  · intro p c
    have hd := demographicScore_bounds p
    have hec := economicScore_bounds p c
    have hso := socialScore_bounds p c
    have hhe := healthScore_bounds p c
    have hge := geographicScore_bounds p
    refine ⟨rfl, rfl, rfl, rfl, rfl, rfl, ?_, ?_⟩
    · unfold overallVulnerabilityScore vulnWeightDemographic
        vulnWeightEconomic vulnWeightSocial vulnWeightHealth
        vulnWeightGeographic
      linarith [hd.1, hec.1, hso.1, hhe.1, hge.1]
    · unfold overallVulnerabilityScore vulnWeightDemographic
        vulnWeightEconomic vulnWeightSocial vulnWeightHealth
        vulnWeightGeographic
      linarith [hd.2, hec.2, hso.2, hhe.2, hge.2, hd.1, hec.1, hso.1,
        hhe.1, hge.1]
  · refine ⟨⟨70, "F", some "DIVORCED", some "RURAL_1", 1, 4, true⟩,
      some ⟨some 0, some "UNEMPLOYED", some "NONE", some "POOR",
        some "HOMELESS", true, true⟩, ?_, ?_, ?_, ?_, ?_⟩
    · norm_num [economicRawScore, economicIncomePart, economicEmploymentPart,
        economicHousingPart, economicDependentsPart]
    · norm_num [economicScore, min_def, economicRawScore, economicIncomePart,
        economicEmploymentPart, economicHousingPart, economicDependentsPart]
    · norm_num [healthRawScore, healthContextPart]
    · norm_num [healthScore, min_def, healthRawScore, healthContextPart]
    · norm_num [overallVulnerabilityScore, vulnWeightDemographic,
        vulnWeightEconomic, vulnWeightSocial, vulnWeightHealth,
        vulnWeightGeographic, demographicScore, demographicRawScore,
        demographicAgePart, economicScore, economicRawScore,
        economicIncomePart, economicEmploymentPart, economicHousingPart,
        economicDependentsPart, socialScore, socialRawScore,
        socialEducationPart, healthScore, healthRawScore, healthContextPart,
        geographicScore, geographicRawScore, min_def]

/-- Claim C9: the classification is CRITICAL iff score ≥ 80, HIGH iff
60 ≤ score < 80, MODERATE iff 40 ≤ score < 60, LOW otherwise; lower
bounds are inclusive (80 → CRITICAL, 60 → HIGH, 40 → MODERATE,
39.99 → LOW). -/
theorem vulnerability_classification_spec :
    (∀ s : ℚ, (classifyVulnerabilityLevel s = "CRITICAL" ↔ 80 ≤ s) ∧
      (classifyVulnerabilityLevel s = "HIGH" ↔ 60 ≤ s ∧ s < 80) ∧
      (classifyVulnerabilityLevel s = "MODERATE" ↔ 40 ≤ s ∧ s < 60) ∧
      (classifyVulnerabilityLevel s = "LOW" ↔ s < 40)) ∧
    classifyVulnerabilityLevel 80 = "CRITICAL" ∧
    classifyVulnerabilityLevel 60 = "HIGH" ∧
    classifyVulnerabilityLevel 40 = "MODERATE" ∧
    classifyVulnerabilityLevel (3999/100) = "LOW" := by
  constructor
  · intro s
    unfold classifyVulnerabilityLevel
    split_ifs with h1 h2 h3 <;>
      refine ⟨?_, ?_, ?_, ?_⟩ <;> simp_all <;>
      (try linarith); (try (intro hx; linarith))
  · refine ⟨?_, ?_, ?_, ?_⟩ <;> norm_num [classifyVulnerabilityLevel]

/-- Claim C10: the graduated score is computed independently of the
boolean pass result — a strict GT (or strict LT) rule whose present
numeric actual value equals the expected value has `passed = false` yet
records a score of 100. -/
theorem graduated_score_independent_of_passed
    (rule : EligibilityRule) (ctx : Context) (q : ℚ)
    (hval : ctx rule.field_name = Value.prim (Prim.num q))
    (hexp : rule.expected_value = Value.prim (Prim.num q))
    (hop : rule.operator = Op.GT ∨ rule.operator = Op.LT) :
    evaluateSingleRule rule ctx = Except.ok ⟨false, 100⟩ := by
  rcases hop with h | h <;>
    simp [evaluateSingleRule, hval, hexp, h, applyOperator, Value.null,
      calculateGradualScore, Prim.toFloatQ, Value.toFloatQ, lt_irrefl]

/-- Witness for C10: a GT rule with expected value 5 against an actual
value of 5 fails the comparison but scores 100. -/
theorem graduated_score_independent_of_passed_witness :
    evaluateSingleRule
      ⟨"g", "INCOME", "x", Op.GT, Value.prim (Prim.num 5), 1, 1, true, true⟩
      (fun _ => Value.prim (Prim.num 5)) = Except.ok ⟨false, 100⟩ :=
  graduated_score_independent_of_passed
    ⟨"g", "INCOME", "x", Op.GT, Value.prim (Prim.num 5), 1, 1, true, true⟩
    (fun _ => Value.prim (Prim.num 5)) 5 rfl rfl (Or.inl rfl)
